import Mathlib

/-
  Verification development for the NESiR emulator core.

  The definitions below are a shallow embedding of the Rust sources under
  src/src/: machine words (u8/u16/usize) are modelled as Nat with explicit
  masking / `% 2^w` at the points where the Rust code wraps, memories are
  modelled as functions `Nat → Nat`, and code paths that panic in Rust
  (`panic!`, `unimplemented!`, `unreachable!`) are modelled by `Option`
  with `none` standing for the fault.

  Debug-only fields of the Rust structs (trace snapshots, clock dividers,
  the `fetch_needed` flag) are omitted: they have no effect on any of the
  modelled operations.
-/

namespace NESiR

/-- Pointwise update of a memory modelled as a function. -/
def upd (f : Nat → Nat) (a v : Nat) : Nat → Nat :=
  fun b => if b = a then v else f b

/-! ## PixelPos (src/src/arch/ppu.rs lines 6-41) -/

structure PixelPos where
  cycle : Nat
  scanline : Nat
  isOdd : Bool
deriving DecidableEq, Repr

/-- Power-on position, from `impl Default for PixelPos`. -/
def PixelPos.default : PixelPos := ⟨0, 261, true⟩

/-- `PixelPos::inc`. `cycle` and `scanline` are u16 in the source; they are
kept below 341 resp. 262 by the resets, so plain Nat successor is exact. -/
def PixelPos.inc (p : PixelPos) : PixelPos :=
  let cycle := (p.cycle + 1) % 65536
  if cycle = 341 then
    let scanline := (p.scanline + 1) % 65536
    if scanline = 262 then
      let isOdd := !p.isOdd
      if isOdd then ⟨1, 0, isOdd⟩ else ⟨0, 0, isOdd⟩
    else ⟨0, scanline, p.isOdd⟩
  else ⟨cycle, p.scanline, p.isOdd⟩

/-! ## Control / mask register accessors (the `bitfield!` blocks) -/

/-- `CtrlReg.vram_addr_inc` (bit 2). -/
def ctrlVramAddrInc (ctrl : Nat) : Bool := ctrl.testBit 2

/-- `CtrlReg.background_pattern_addr` (bit 4). -/
def ctrlBackgroundPatternAddr (ctrl : Nat) : Bool := ctrl.testBit 4

/-- `CtrlReg.generate_nmi` (bit 7). -/
def ctrlGenerateNmi (ctrl : Nat) : Bool := ctrl.testBit 7

/-- `MaskReg.show_background` (bit 3). -/
def maskShowBackground (mask : Nat) : Bool := mask.testBit 3

/-- `MaskReg.show_sprites` (bit 4). -/
def maskShowSprites (mask : Nat) : Bool := mask.testBit 4

/-! ## VramAddr (bits of the 15-bit `v`/`t` registers, stored in a u16) -/

/-- `VramAddr.coarse_x` (bits 0..=4). -/
def vaCoarseX (v : Nat) : Nat := v &&& 0x1F

/-- `VramAddr.coarse_y` (bits 5..=9). -/
def vaCoarseY (v : Nat) : Nat := (v >>> 5) &&& 0x1F

/-- `VramAddr.fine_y` (bits 12..=14). -/
def vaFineY (v : Nat) : Nat := (v >>> 12) &&& 0x7

/-- Bitfield setter for coarse_x (bits 0..=4). -/
def vaSetCoarseX (v x : Nat) : Nat := (v &&& 0xFFE0) ||| (x &&& 0x1F)

/-- Bitfield setter for coarse_y (bits 5..=9). -/
def vaSetCoarseY (v y : Nat) : Nat := (v &&& 0xFC1F) ||| ((y &&& 0x1F) <<< 5)

/-- Bitfield setter for fine_y (bits 12..=14). -/
def vaSetFineY (v y : Nat) : Nat := (v &&& 0x8FFF) ||| ((y &&& 0x7) <<< 12)

/-- `VramAddr::increment_coarse_x`. -/
def vaIncrementCoarseX (v : Nat) : Nat :=
  if vaCoarseX v = 31 then
    (vaSetCoarseX v 0) ^^^ 0x0400
  else
    (v + 1) % 65536

/-- `VramAddr::increment_fine_y`. -/
def vaIncrementFineY (v : Nat) : Nat :=
  if vaFineY v = 7 then
    let v := vaSetFineY v 0
    if vaCoarseY v = 29 then
      (vaSetCoarseY v 0) ^^^ 0x0800
    else if vaCoarseY v = 31 then
      vaSetCoarseY v 0
    else
      vaSetCoarseY v (vaCoarseY v + 1)
  else
    vaSetFineY v (vaFineY v + 1)

/-! ## Component state (src/src/arch/cpu.rs, ppu.rs, mappers/mapper000.rs) -/

/-- The CPU register file (`struct Cpu`). The clock divider and the
trace-debugging fields (`fetch_needed`, `last_state`) are omitted;
`procedure` is modelled separately as an explicit `Proc` value. -/
structure Cpu where
  wram : Nat → Nat
  pc : Nat
  sp : Nat
  status : Nat
  acc : Nat
  x : Nat
  y : Nat
  rdy : Bool
  prefetch : Option Nat
  cyc : Nat
  /-- Modelled from the spec: the predecode register, "a predecode register
  on the CPU always holds the most recently read byte". Its declaration is
  missing from the source snapshot; its assignments appear in
  src/src/arch.rs (every `Nes` bus access stores into `cpu.predecode`). -/
  predecode : Nat
  /-- Modelled from the spec: the active-low NMI line stored on the CPU
  (spec section 3, "NMI-line (active-low interrupt) state"). Its declaration
  is missing from the source snapshot; it is assigned by
  `Ppu::update_nmi_output` in src/src/arch/ppu.rs. -/
  nmi : Bool

/-- The PPU state (`struct Ppu`), minus its clock divider. -/
structure Ppu where
  portsLatch : Nat
  cyclesSincePwrrst : Nat
  ctrlUnlocked : Bool
  writeToggle : Bool
  ctrl : Nat
  mask : Nat
  oamAddr : Nat
  fineXScroll : Nat
  vramAddr : Nat
  tmpVramAddr : Nat
  internalBusAddr : Nat
  nametableLat : Nat
  attributeLat : Nat
  patternLowerLat : Nat
  patternUpperLat : Nat
  shiftAttrib : Nat
  shiftLower : Nat
  shiftUpper : Nat
  pos : PixelPos
  vblank : Bool
  fb : Nat → Nat
  ciram : Nat → Nat
  palettes : Nat → Nat
  palValues : Nat → Nat

/-- The reference cartridge mapping (`Mapper000`), the only concrete
mapper in the sources. -/
structure Cart where
  prgRam : Nat → Nat
  prgRom : Nat → Nat
  chrRom : Nat → Nat

/-- The shared aggregate (`struct Nes`). -/
structure Nes where
  cpu : Cpu
  ppu : Ppu
  cart : Cart
  lastBus : Nat × Nat × Bool

/-! ## Mapper000 bus operations (src/src/arch/mappers/mapper000.rs) -/

/-- `Mapper000::read_cpu`; `none` is the `panic!` arm. -/
def Cart.readCpu (c : Cart) (addr : Nat) : Option Nat :=
  if 0x6000 ≤ addr ∧ addr ≤ 0x7FFF then some (c.prgRam (addr &&& 0x1FFF))
  else if 0x8000 ≤ addr ∧ addr ≤ 0xFFFF then some (c.prgRom (addr &&& 0x7FFF))
  else none

/-- `Mapper000::write_cpu`; writes to ROM are ignored, out-of-range panics. -/
def Cart.writeCpu (c : Cart) (addr data : Nat) : Option Cart :=
  if 0x6000 ≤ addr ∧ addr ≤ 0x7FFF then
    some { c with prgRam := upd c.prgRam (addr &&& 0x1FFF) data }
  else if 0x8000 ≤ addr ∧ addr ≤ 0xFFFF then some c
  else none

/-- `Mapper000::read_ppu`; `none` is the `unimplemented!` arm. -/
def Cart.readPpu (c : Cart) (addr : Nat) : Option Nat :=
  if addr ≤ 0x1FFF then some (c.chrRom addr) else none

/-- `Mapper000::write_ppu` (does nothing). -/
def Cart.writePpu (c : Cart) (_addr _data : Nat) : Cart := c

/-! ## PPU memory map (src/src/arch/ppu.rs `Ppu::read` / `Ppu::write`)

`Ppu::read` takes `&mut Nes` but only reads state, so it is modelled as a
pure `Option Nat`.  Note the quirk of the source: the match scrutinee is
`addr & 0x3FFF` but the cartridge arm passes the unmasked `addr` on to
`Mapper000::read_ppu`.  `none` models the `unimplemented!` reached when a
palette index is read during vblank, and the `unreachable!` fallthrough. -/

/-- `Ppu::read`. -/
def Ppu.readMem (nes : Nes) (addr : Nat) : Option Nat :=
  let m := addr &&& 0x3FFF
  if m ≤ 0x1FFF then nes.cart.readPpu addr
  else if m ≤ 0x3EFF then some (nes.ppu.ciram (addr &&& 0x7FF))
  else if m ≤ 0x3FFF then
    let a := addr &&& 0x1F
    if nes.ppu.vblank then none
    else
      let a := if a = 0x10 ∨ a = 0x14 ∨ a = 0x18 ∨ a = 0x1C then a &&& 0x0F else a
      some (nes.ppu.palettes a)
  else none

/-- `Ppu::write`. -/
def Ppu.writeMem (nes : Nes) (addr data : Nat) : Option Nes :=
  let m := addr &&& 0x3FFF
  if m ≤ 0x1FFF then some { nes with cart := nes.cart.writePpu addr data }
  else if m ≤ 0x3EFF then
    some { nes with ppu := { nes.ppu with ciram := upd nes.ppu.ciram (addr &&& 0x7FF) data } }
  else if m ≤ 0x3FFF then
    let a := addr &&& 0x1F
    let a := if a = 0x10 ∨ a = 0x14 ∨ a = 0x18 ∨ a = 0x1C then a &&& 0x0F else a
    some { nes with ppu := { nes.ppu with palettes := upd nes.ppu.palettes a data } }
  else none

/-- `Ppu::update_nmi_output`. -/
def Ppu.updateNmiOutput (nes : Nes) : Nes :=
  if ctrlGenerateNmi nes.ppu.ctrl ∧ nes.ppu.vblank then
    { nes with cpu := { nes.cpu with nmi := false } }
  else nes

/-! ## PPU port window (src/src/arch/ppu.rs `Ppu::port_read` / `Ppu::port_write`) -/

/-- `Ppu::port_read`.  Returns the updated state together with the byte
returned on the bus (always the open-bus `ports_latch`); `none` models the
`unimplemented!` at `$2004` and the `unreachable!` fallthrough.  For `$2007`
the source performs `Ppu::read(nes, v)` and discards the value, so this
model evaluates the read only for its possible fault before stepping `v`. -/
def Ppu.portRead (nes : Nes) (addr : Nat) : Option (Nes × Nat) :=
  let post := fun (nes : Nes) => some (nes, nes.ppu.portsLatch)
  if addr = 0x2000 then post nes
  else if addr = 0x2001 then post nes
  else if addr = 0x2002 then
    post { nes with ppu := { nes.ppu with
      portsLatch := ((if nes.ppu.vblank then 1 else 0) <<< 7) ||| (nes.ppu.portsLatch &&& 0b00011111),
      vblank := false,
      writeToggle := false } }
  else if addr = 0x2003 then post nes
  else if addr = 0x2004 then none
  else if addr = 0x2005 then post nes
  else if addr = 0x2006 then post nes
  else if addr = 0x2007 then
    (Ppu.readMem nes nes.ppu.vramAddr).bind fun _ =>
      let inc := if !ctrlVramAddrInc nes.ppu.ctrl then 1 else 32
      post { nes with ppu := { nes.ppu with vramAddr := (nes.ppu.vramAddr + inc) % 65536 } }
  else none

/-- `Ppu::port_write`; `none` models the `unimplemented!` at `$2004` and the
`unreachable!` fallthrough.  Every write latches `data` into `ports_latch`
before dispatching.  Only the `$2000` arm is gated on `ctrl_unlocked`. -/
def Ppu.portWrite (nes : Nes) (addr data : Nat) : Option Nes :=
  let nes := { nes with ppu := { nes.ppu with portsLatch := data } }
  if addr = 0x2000 then
    some (if nes.ppu.ctrlUnlocked then
      Ppu.updateNmiOutput { nes with ppu := { nes.ppu with ctrl := data } }
    else nes)
  else if addr = 0x2001 then some { nes with ppu := { nes.ppu with mask := data } }
  else if addr = 0x2002 then some nes
  else if addr = 0x2003 then some { nes with ppu := { nes.ppu with oamAddr := data } }
  else if addr = 0x2004 then none
  else if addr = 0x2005 then
    let ppu := nes.ppu
    let ppu :=
      if !ppu.writeToggle then
        { ppu with tmpVramAddr := vaSetCoarseX ppu.tmpVramAddr (data >>> 3),
                   fineXScroll := data &&& 0b111 }
      else
        { ppu with tmpVramAddr :=
            vaSetFineY (vaSetCoarseY ppu.tmpVramAddr (data >>> 3)) (data &&& 0b111) }
    some { nes with ppu := { ppu with writeToggle := !ppu.writeToggle } }
  else if addr = 0x2006 then
    let ppu := nes.ppu
    let ppu :=
      if !ppu.writeToggle then
        { ppu with tmpVramAddr := ((data &&& 0x003F) <<< 8) ||| (ppu.tmpVramAddr &&& 0x00FF) }
      else
        let t := (ppu.tmpVramAddr &&& 0xFF00) ||| data
        { ppu with tmpVramAddr := t, vramAddr := t }
    some { nes with ppu := { ppu with writeToggle := !ppu.writeToggle } }
  else if addr = 0x2007 then
    (Ppu.writeMem nes nes.ppu.vramAddr data).bind fun nes =>
      let inc := if !ctrlVramAddrInc nes.ppu.ctrl then 1 else 32
      some { nes with ppu := { nes.ppu with vramAddr := (nes.ppu.vramAddr + inc) % 65536 } }
  else none

/-! ## PPU cycle (src/src/arch/ppu.rs `Ppu::cycle` and `Ppu::draw_pixel`) -/

/-- `Ppu::draw_pixel`.  The u8 and u16 subtractions that can wrap in the
source (`x_pos - 17`, `pos.cycle - 1`) are modelled with the explicit
two's-complement additions; the `fb.get_mut(..)` bound check makes the
frame-buffer store a no-op out of range. -/
def Ppu.drawPixel (p : Ppu) : Ppu :=
  let bitLower := (p.shiftLower >>> (15 - p.fineXScroll)) &&& 1
  let bitUpper := (p.shiftUpper >>> (15 - p.fineXScroll)) &&& 1
  let xPos := (((vaCoarseX p.vramAddr <<< 3) ||| p.fineXScroll) + ((p.pos.cycle % 256) &&& 0x07)) % 256
  let attrX := ((xPos + 256 - 17) % 256) &&& 0x1F
  let actualAttrib :=
    if 8 ≤ (((p.pos.cycle + 65536 - 1) % 65536) &&& 0x07) + p.fineXScroll
    then p.attributeLat else p.shiftAttrib
  let yPos := (vaCoarseY p.vramAddr <<< 3) ||| vaFineY p.vramAddr
  let yShift := (yPos &&& 0x10) >>> 2
  let xShift := (attrX &&& 0x10) >>> 3
  let attr := (actualAttrib >>> (yShift + xShift)) &&& 0x03
  let palIndex := (attr <<< 2) ||| (bitUpper <<< 1) ||| bitLower
  let color := p.palValues palIndex
  let idx := p.pos.scanline * 256 + p.pos.cycle
  if 15 ≤ idx ∧ idx - 15 < 256 * 240 then
    { p with fb := upd p.fb (idx - 15) color }
  else p

/-- One fetch-pipeline dot of `Ppu::cycle`: the `match cycle % 8` block that
runs for dots 1..=256 when rendering is enabled. -/
def Ppu.macroDot (nes : Nes) (cycle : Nat) : Option Nes :=
  match cycle % 8 with
  | 1 => some { nes with ppu := { nes.ppu with
            internalBusAddr := 0x2000 ||| (nes.ppu.vramAddr &&& 0x0FFF) } }
  | 2 => (Ppu.readMem nes nes.ppu.internalBusAddr).bind fun d =>
           some { nes with ppu := { nes.ppu with nametableLat := d } }
  | 3 => some { nes with ppu := { nes.ppu with
            internalBusAddr := 0x23C0 ||| (nes.ppu.vramAddr &&& 0x0C00) |||
              ((nes.ppu.vramAddr >>> 4) &&& 0x38) ||| ((nes.ppu.vramAddr >>> 2) &&& 0x07) } }
  | 4 => (Ppu.readMem nes nes.ppu.internalBusAddr).bind fun d =>
           some { nes with ppu := { nes.ppu with attributeLat := d } }
  | 5 => some { nes with ppu := { nes.ppu with
            internalBusAddr := ((if ctrlBackgroundPatternAddr nes.ppu.ctrl then 1 else 0) <<< 12) |||
              (nes.ppu.nametableLat <<< 4) ||| vaFineY nes.ppu.vramAddr } }
  | 6 => (Ppu.readMem nes nes.ppu.internalBusAddr).bind fun d =>
           some { nes with ppu := { nes.ppu with patternLowerLat := d } }
  | 7 => some { nes with ppu := { nes.ppu with
            internalBusAddr := ((if ctrlBackgroundPatternAddr nes.ppu.ctrl then 1 else 0) <<< 12) |||
              (nes.ppu.nametableLat <<< 4) ||| 0b1000 ||| vaFineY nes.ppu.vramAddr } }
  | _ => (Ppu.readMem nes nes.ppu.internalBusAddr).bind fun d =>
           let ppu := { nes.ppu with patternUpperLat := d }
           let ppu := { ppu with vramAddr := vaIncrementCoarseX ppu.vramAddr }
           let ppu :=
             if cycle ≠ 1 then
               { ppu with shiftAttrib := ppu.attributeLat,
                          shiftLower := (ppu.shiftLower &&& 0xFF00) ||| ppu.patternLowerLat,
                          shiftUpper := (ppu.shiftUpper &&& 0xFF00) ||| ppu.patternUpperLat }
             else ppu
           some { nes with ppu := ppu }

/-- `Ppu::cycle`.  `none` propagates the panics reachable through
`Ppu::read` (palette reads during vblank, cartridge CHR reads above
`$1FFF`). -/
def Ppu.cycle (nes : Nes) : Option Nes :=
  let cycle := nes.ppu.pos.cycle
  let line := nes.ppu.pos.scanline
  let rendering := fun (nes : Nes) =>
    maskShowBackground nes.ppu.mask ∨ maskShowSprites nes.ppu.mask
  (if line ≤ 239 ∨ line = 261 then
    let nes := if line = 261 ∧ cycle = 1 then
      { nes with ppu := { nes.ppu with vblank := false } } else nes
    let nes :=
      if line = 261 ∧ (280 ≤ cycle ∧ cycle ≤ 304) ∧ rendering nes then
        -- v = (v & !0x7BE0) | (t & !0x7BE0); on u16, !0x7BE0 = 0x841F
        { nes with ppu := { nes.ppu with vramAddr :=
            (nes.ppu.vramAddr &&& 0x841F) ||| (nes.ppu.tmpVramAddr &&& 0x841F) } }
      else nes
    (if rendering nes then
      let nes :=
        if cycle = 0 then
          { nes with ppu := { nes.ppu with internalBusAddr :=
              ((if ctrlBackgroundPatternAddr nes.ppu.ctrl then 1 else 0) <<< 12) |||
                (nes.ppu.nametableLat <<< 4) ||| vaFineY nes.ppu.vramAddr } }
        else nes
      (if 1 ≤ cycle ∧ cycle ≤ 256 then Ppu.macroDot nes cycle else some nes).bind fun nes =>
      let nes :=
        if cycle = 256 then
          { nes with ppu := { nes.ppu with vramAddr := vaIncrementFineY nes.ppu.vramAddr } }
        else nes
      let nes :=
        if cycle = 257 then
          -- v = (v & !0x041F) | (t & !0x041F); on u16, !0x041F = 0xFBE0
          { nes with ppu := { nes.ppu with vramAddr :=
              (nes.ppu.vramAddr &&& 0xFBE0) ||| (nes.ppu.tmpVramAddr &&& 0xFBE0) } }
        else nes
      some nes
    else some nes).bind fun nes =>
    let nes :=
      if 2 ≤ cycle ∧ cycle ≤ 337 then
        { nes with ppu := { nes.ppu with
            shiftLower := ((nes.ppu.shiftLower <<< 1) ||| 1) % 65536,
            shiftUpper := ((nes.ppu.shiftUpper <<< 1) ||| 1) % 65536 } }
      else nes
    some nes
  else if line = 241 ∧ cycle = 1 then
    some (Ppu.updateNmiOutput { nes with ppu := { nes.ppu with vblank := true } })
  else some nes).bind fun nes =>
  let nes := if rendering nes then { nes with ppu := Ppu.drawPixel nes.ppu } else nes
  let ppu : Ppu := { nes.ppu with pos := nes.ppu.pos.inc,
                                  cyclesSincePwrrst := nes.ppu.cyclesSincePwrrst + 1 }
  let ppu : Ppu :=
    if ppu.ctrlUnlocked = false ∧ 30000 ≤ ppu.cyclesSincePwrrst then
      { ppu with ctrlUnlocked := true }
    else ppu
  some { nes with ppu := ppu }

/-! ## CPU-internal memory (src/src/arch/cpu.rs `impl CpuBusAccessible for Cpu`) -/

/-- `Cpu::write` (work RAM, mirrored every 2 KiB); `none` is the `panic!`. -/
def Cpu.write (cpu : Cpu) (addr data : Nat) : Option Cpu :=
  if addr ≤ 0x1FFF then some { cpu with wram := upd cpu.wram (addr &&& 0x07FF) data }
  else none

/-- `Cpu::read`; `none` is the `panic!`. -/
def Cpu.read (cpu : Cpu) (addr : Nat) : Option Nat :=
  if addr ≤ 0x1FFF then some (cpu.wram (addr &&& 0x07FF))
  else none

/-! ## System bus (src/src/arch.rs `impl CpuBusAccessible for Nes`, non-sst) -/

/-- `Nes::write`.  The predecode register is loaded with the written byte
before dispatch; after a successful dispatch the access is recorded in
`last_bus`.  `none` models the `panic!` arms (CPU test mode `$4018-$401F`,
the `$4014` route into `Cpu::write`, PPU port `$2004`, cartridge addresses
outside the mapper's ranges). -/
def Nes.write (nes : Nes) (addr data : Nat) : Option Nes :=
  let nes := { nes with cpu := { nes.cpu with predecode := data } }
  (if addr ≤ 0x1FFF ∨ addr = 0x4014 then
    (nes.cpu.write addr data).bind fun cpu => some { nes with cpu := cpu }
  else if addr ≤ 0x3FFF then Ppu.portWrite nes addr data
  else if addr ≤ 0x4017 then some nes
  else if addr ≤ 0x401F then none
  else if addr ≤ 0xFFFF then
    (nes.cart.writeCpu addr data).bind fun cart => some { nes with cart := cart }
  else none).bind fun nes =>
  some { nes with lastBus := (addr, data, false) }

/-- `Nes::read`.  The value delivered by the addressed component is stored
into the predecode register and recorded in `last_bus`; `none` models the
`panic!` arms. -/
def Nes.read (nes : Nes) (addr : Nat) : Option (Nes × Nat) :=
  (if addr ≤ 0x1FFF then
    (nes.cpu.read addr).bind fun v => some (nes, v)
  else if addr ≤ 0x3FFF then Ppu.portRead nes addr
  else if addr ≤ 0x4017 then some (nes, 0)
  else if addr ≤ 0x401F then none
  else if addr ≤ 0xFFFF then
    (nes.cart.readCpu addr).bind fun v => some (nes, v)
  else none).bind fun nv =>
  some ({ nv.1 with cpu := { nv.1.cpu with predecode := nv.2 },
                    lastBus := (addr, nv.2, true) }, nv.2)

/-! ## CPU helpers (src/src/arch/cpu.rs `fetch`, `stack_push`, `stack_pull`) -/

/-- `Cpu::fetch`: bus read at PC, then PC post-increments (u16 wrap). -/
def Nes.fetch (nes : Nes) : Option (Nes × Nat) :=
  (Nes.read nes nes.cpu.pc).bind fun nv =>
  some ({ nv.1 with cpu := { nv.1.cpu with pc := (nv.1.cpu.pc + 1) % 65536 } }, nv.2)

/-- `Cpu::stack_push`: write at `$0100 + sp`, then decrement sp (wrapping u8). -/
def Nes.stackPush (nes : Nes) (data : Nat) : Option Nes :=
  (Nes.write nes (0x100 + nes.cpu.sp) data).bind fun nes =>
  some { nes with cpu := { nes.cpu with sp := (nes.cpu.sp + 255) % 256 } }

/-- `Cpu::stack_pull`: increment sp (wrapping u8), then read at `$0100 + sp`. -/
def Nes.stackPull (nes : Nes) : Option (Nes × Nat) :=
  let nes := { nes with cpu := { nes.cpu with sp := (nes.cpu.sp + 1) % 256 } }
  Nes.read nes (0x100 + nes.cpu.sp)

/-! ## Instruction procedures (src/src/arch/cpu.rs `InstructionProcedure`) -/

/-- The in-flight instruction slot (`struct InstructionProcedure`), minus
the step-function pointer and addressing mode, which are fixed per
modelled instruction here. -/
structure Proc where
  done : Bool
  cycle : Nat
  tmp0 : Nat
  tmp1 : Nat
  tmpAddr : Nat

/-- `InstructionProcedure::new` (starts at cycle 1). -/
def Proc.new : Proc := ⟨false, 1, 0, 0, 0⟩

/-- `InstructionProcedure::step`: run the step function, then `cycle += 1`.
A step function maps the in-flight slot and the machine to their successors. -/
def Proc.step (f : Proc → Nes → Option (Proc × Nes)) (p : Proc) (nes : Nes) :
    Option (Proc × Nes) :=
  (f p nes).bind fun pn => some ({ pn.1 with cycle := pn.1.cycle + 1 }, pn.2)

/-- Run `n` consecutive `step`s of one instruction's step function. -/
def Proc.run (f : Proc → Nes → Option (Proc × Nes)) :
    Nat → Proc → Nes → Option (Proc × Nes)
  | 0, p, nes => some (p, nes)
  | n + 1, p, nes => (Proc.step f p nes).bind fun pn => Proc.run f n pn.1 pn.2

/-- `brk` (opcode `$00`), src/src/arch/cpu.rs lines 602-619. -/
def brkStep (p : Proc) (nes : Nes) : Option (Proc × Nes) :=
  if p.cycle = 2 then (Nes.fetch nes).bind fun nv => some (p, nv.1)
  else if p.cycle = 3 then
    (Nes.stackPush nes (nes.cpu.pc >>> 8)).bind fun nes => some (p, nes)
  else if p.cycle = 4 then
    (Nes.stackPush nes (nes.cpu.pc % 256)).bind fun nes => some (p, nes)
  else if p.cycle = 5 then
    (Nes.stackPush nes (nes.cpu.status ||| 0b00010000)).bind fun nes => some (p, nes)
  else if p.cycle = 6 then
    (Nes.read nes 0xFFFE).bind fun nv => some ({ p with tmp0 := nv.2 }, nv.1)
  else if p.cycle = 7 then
    (Nes.read nes 0xFFFF).bind fun nv =>
    let p := { p with tmp1 := nv.2 }
    let nes := { nv.1 with cpu := { nv.1.cpu with pc := (p.tmp1 <<< 8) ||| p.tmp0 } }
    (Nes.fetch nes).bind fun nv =>
    some ({ p with done := true },
          { nv.1 with cpu := { nv.1.cpu with prefetch := some nv.2 } })
  else some (p, nes)

/-- Execute the whole BRK instruction: 7 steps from a fresh procedure slot
(cycle 1 is the no-op overlapping the opcode fetch, as in `Cpu::cycle`). -/
def brkExec (nes : Nes) : Option (Proc × Nes) :=
  Proc.run brkStep 7 Proc.new nes

/-- `php` (opcode `$08`), src/src/arch/cpu.rs lines 1021-1032. -/
def phpStep (p : Proc) (nes : Nes) : Option (Proc × Nes) :=
  if p.cycle = 2 then (Nes.read nes nes.cpu.pc).bind fun nv => some (p, nv.1)
  else if p.cycle = 3 then
    (Nes.stackPush nes (nes.cpu.status ||| 0b00110000)).bind fun nes =>
    (Nes.fetch nes).bind fun nv =>
    some ({ p with done := true },
          { nv.1 with cpu := { nv.1.cpu with prefetch := some nv.2 } })
  else some (p, nes)

/-- `plp` (opcode `$28`), src/src/arch/cpu.rs lines 1049-1063. -/
def plpStep (p : Proc) (nes : Nes) : Option (Proc × Nes) :=
  if p.cycle = 2 then (Nes.read nes nes.cpu.pc).bind fun nv => some (p, nv.1)
  else if p.cycle = 3 then
    (Nes.read nes (nes.cpu.sp + 0x100)).bind fun nv => some (p, nv.1)
  else if p.cycle = 4 then
    (Nes.stackPull nes).bind fun nv =>
    let nes := { nv.1 with cpu := { nv.1.cpu with
      status := (nv.2 &&& 0b11001111) ||| 0b00100000 } }
    (Nes.fetch nes).bind fun nv =>
    some ({ p with done := true },
          { nv.1 with cpu := { nv.1.cpu with prefetch := some nv.2 } })
  else some (p, nes)

/-- Execute PHP (3 cycles). -/
def phpExec (nes : Nes) : Option (Proc × Nes) :=
  Proc.run phpStep 3 Proc.new nes

/-- Execute PLP (4 cycles). -/
def plpExec (nes : Nes) : Option (Proc × Nes) :=
  Proc.run plpStep 4 Proc.new nes

/-! ## ADC data path (src/src/arch/cpu.rs `adc`, lines 509-525) -/

/-- `StatusReg::set`: set or clear the flag bits given by `mask` (bitflags
`insert` / `remove` on a u8). -/
def statusSet (s mask : Nat) (b : Bool) : Nat :=
  if b then s ||| mask else s &&& (255 ^^^ mask)

/-- The arithmetic core of `adc` once the operand byte has been read:
`result` is computed in u16, the four flags are set, and the accumulator
takes the low byte.  Returns `(acc, status)`. -/
def adcCore (acc data status : Nat) : Nat × Nat :=
  let result := (acc + data + (if status.testBit 0 then 1 else 0)) % 65536
  let status := statusSet status 0b00000001 (result &&& 0x100 != 0)
  let status := statusSet status 0b01000000
    ((((acc ^^^ data) ^^^ 0xFF) &&& (acc ^^^ (result % 256)) &&& 0x80) != 0)
  let status := statusSet status 0b00000010 (result % 256 == 0)
  let status := statusSet status 0b10000000 (decide (0 < result &&& 0x80))
  (result % 256, status)

/-! ## Reset-state components (the `Default` impls of `Cpu`, `Ppu`, `Nes`) -/

/-- `Cpu::default()`: sp `$FD`, status `{I, B, Unused}` = `$34`. -/
def Cpu.reset : Cpu :=
  { wram := fun _ => 0, pc := 0, sp := 0xFD, status := 0b00110100,
    acc := 0, x := 0, y := 0, rdy := true, prefetch := none, cyc := 0,
    predecode := 0, nmi := true }

/-- `Ppu::default()`. -/
def Ppu.reset : Ppu :=
  { portsLatch := 0, cyclesSincePwrrst := 0, ctrlUnlocked := false,
    writeToggle := false, ctrl := 0, mask := 0, oamAddr := 0,
    fineXScroll := 0, vramAddr := 0, tmpVramAddr := 0, internalBusAddr := 0,
    nametableLat := 0, attributeLat := 0, patternLowerLat := 0,
    patternUpperLat := 0, shiftAttrib := 0, shiftLower := 0, shiftUpper := 0,
    pos := PixelPos.default, vblank := false,
    fb := fun _ => 0, ciram := fun _ => 0, palettes := fun _ => 0,
    palValues := fun _ => 0 }

/-- An all-zero reference cartridge. -/
def Cart.zero : Cart :=
  { prgRam := fun _ => 0, prgRom := fun _ => 0, chrRom := fun _ => 0 }

/-- The just-after-reset machine. -/
def Nes.reset : Nes :=
  { cpu := Cpu.reset, ppu := Ppu.reset, cart := Cart.zero, lastBus := (0, 0, false) }

/-! ## Concrete machine states used by the individual claims -/

/-- A machine at dot 257 of visible scanline 0, background rendering
enabled, `v = 0`, `t = $0001` (coarse-X = 1). -/
def c1state : Nes :=
  { Nes.reset with ppu :=
    { Ppu.reset with pos := ⟨257, 0, false⟩, mask := 0x08, tmpVramAddr := 1 } }

/-- A machine at dot 290 of the pre-render scanline, background rendering
enabled, `v = 0`, `t = $7000` (fine-Y = 7). -/
def c1vstate : Nes :=
  { Nes.reset with ppu :=
    { Ppu.reset with pos := ⟨290, 261, false⟩, mask := 0x08, tmpVramAddr := 0x7000 } }

/-- A machine with rendering disabled at the very last dot of an even
frame (dot 340 of scanline 261). -/
def c5state : Nes :=
  { Nes.reset with ppu := { Ppu.reset with pos := ⟨340, 261, false⟩ } }

/-- A machine with the byte `$42` stored at PPU address `$2000` (ciram
cell 0), rendering disabled and vblank clear. -/
def c2state : Nes :=
  { Nes.reset with ppu := { Ppu.reset with ciram := upd (fun _ => 0) 0 0x42 } }

/-- The `$2006`,`$2006`,`$2007` sequence of claim C2, loading the PPU
address `$2000` and then reading `$2007`. -/
def c2chain : Option (Nes × Nat) :=
  (Nes.write c2state 0x2006 0x20).bind fun nes =>
  (Nes.write nes 0x2006 0x00).bind fun nes =>
  Nes.read nes 0x2007

/-- A machine about to execute BRK: the opcode byte was at `$0234` (so PC
is `$0235` after the opcode fetch), SP = `$FD`, status `$20` (I clear),
and the IRQ/BRK vector at `$FFFE/$FFFF` holds `$1234`. -/
def c3state : Nes :=
  { Nes.reset with
    cpu := { Cpu.reset with pc := 0x0235, status := 0x20 },
    cart := { Cart.zero with prgRom := upd (upd (fun _ => 0) 0x7FFE 0x34) 0x7FFF 0x12 } }

/-- A machine about to execute PHP with status `P` and PC in work RAM. -/
def c8state (P : Nat) : Nes :=
  { Nes.reset with cpu := { Cpu.reset with pc := 0x0300, status := P } }

/-- A machine whose work-RAM cell 0 holds `5`. -/
def c6state : Nes :=
  { Nes.reset with cpu := { Cpu.reset with wram := upd (fun _ => 0) 0 5 } }

/-! ## Claims -/

/-- Claim C1.  The claim states that after the PPU cycle at dot 257 of a
visible scanline with rendering enabled, the horizontal bits of `v`
(bits 0-4 and 10, mask `$041F`) equal those of `t`, and that after the
cycles at dots 280-304 of the pre-render scanline the vertical bits
(mask `$7BE0`) equal those of `t`.  The code applies the complemented
mask to both operands (`(v & !m) | (t & !m)`), which zeroes the bits that
were supposed to be copied: with `t = $0001` the horizontal bits of `v`
come out `0`, not `1`, and with `t = $7000` the vertical bits come out
`0`, not `$7000`. -/
theorem C1_scroll_copy_zeroes_bits :
    (Ppu.cycle c1state).map (fun n => n.ppu.vramAddr &&& 0x041F) = some 0 ∧
    c1state.ppu.tmpVramAddr &&& 0x041F = 1 ∧
    (Ppu.cycle c1state).map (fun n => n.ppu.vramAddr &&& 0x041F) ≠
      some (c1state.ppu.tmpVramAddr &&& 0x041F) ∧
    maskShowBackground c1state.ppu.mask = true ∧
    c1state.ppu.pos = ⟨257, 0, false⟩ ∧
    (Ppu.cycle c1vstate).map (fun n => n.ppu.vramAddr &&& 0x7BE0) = some 0 ∧
    c1vstate.ppu.tmpVramAddr &&& 0x7BE0 = 0x7000 ∧
    (Ppu.cycle c1vstate).map (fun n => n.ppu.vramAddr &&& 0x7BE0) ≠
      some (c1vstate.ppu.tmpVramAddr &&& 0x7BE0) := by
  refine ⟨rfl, rfl, by decide, rfl, rfl, rfl, rfl, by decide⟩

/-- Claim C2.  The claim states that two `$2006` writes selecting PPU
address `A` followed by a `$2007` read return the byte stored at `A`
(here `$42` at `$2000`), with `v` stepping to `A + 1`.  The code performs
the PPU-space read but discards its value and returns the open-bus latch,
which at that point holds the low address byte `$00`: the read returns
`0`, not `$42` (the `v += stride` part does hold). -/
theorem C2_ppudata_read_returns_latch :
    c2chain.map (fun p => p.2) = some 0 ∧
    Ppu.readMem c2state 0x2000 = some 0x42 ∧
    c2chain.map (fun p => p.2) ≠ some 0x42 ∧
    c2chain.map (fun p => p.1.ppu.vramAddr) = some 0x2001 ∧
    c2state.ppu.writeToggle = false ∧
    c2state.ppu.vblank = false := by
  refine ⟨rfl, rfl, by decide, rfl, rfl, rfl⟩

/-- Claim C3.  The claim states that BRK pushes PC+2 high then low, then
the status byte with B set, loads PC from the `$FFFE/$FFFF` vector, and
sets the interrupt-disable flag I.  On the concrete machine `c3state`
(BRK opcode at `$0234`, status `$20` with I clear) the pushes and the
vector load all happen as claimed, but the status register afterwards is
still `$20`: the code never sets I. -/
theorem C3_brk_leaves_I_clear :
    (brkExec c3state).map (fun pn => pn.2.cpu.wram 0x1FD) = some 0x02 ∧
    (brkExec c3state).map (fun pn => pn.2.cpu.wram 0x1FC) = some 0x36 ∧
    (brkExec c3state).map (fun pn => pn.2.cpu.wram 0x1FB) = some 0x30 ∧
    (brkExec c3state).map (fun pn => pn.2.cpu.sp) = some 0xFA ∧
    (brkExec c3state).map (fun pn => pn.2.cpu.pc) = some 0x1235 ∧
    (brkExec c3state).map (fun pn => pn.2.cpu.status) = some 0x20 ∧
    (brkExec c3state).map (fun pn => pn.2.cpu.status.testBit 2) = some false := by
  refine ⟨rfl, rfl, rfl, rfl, rfl, rfl, rfl⟩

/-- Counterexample for claim C4.  Just after reset (0 CPU cycles elapsed,
`ctrl_unlocked` still false) a CPU write of `$FF` to `$2001` is not
ignored: the mask register becomes `$FF`.  Only the `$2000` arm of
`Ppu::port_write` is gated on `ctrl_unlocked`. -/
theorem C4_mask_write_not_locked :
    Nes.reset.ppu.ctrlUnlocked = false ∧
    Nes.reset.ppu.cyclesSincePwrrst = 0 ∧
    Nes.reset.ppu.mask = 0 ∧
    (Nes.write Nes.reset 0x2001 0xFF).map (fun n => n.ppu.mask) = some 0xFF := by
  refine ⟨rfl, rfl, rfl, rfl⟩

/-- Claim C4, amended.  While the control lock is closed
(`ctrl_unlocked = false`, as during the first 30,000 PPU cycles after
power/reset), only writes to `$2000` are ignored — and even those still
update the open-bus latch.  Writes to `$2001`, `$2005` and `$2006` take
effect as usual: mask is replaced, fine-X / the write toggle move. -/
theorem C4_only_ctrl_write_locked (nes : Nes) (data : Nat)
    (h : nes.ppu.ctrlUnlocked = false) :
    ((Nes.write nes 0x2000 data).map (fun n =>
        (n.ppu.ctrl, n.ppu.tmpVramAddr, n.ppu.fineXScroll, n.ppu.writeToggle, n.ppu.mask)) =
      some (nes.ppu.ctrl, nes.ppu.tmpVramAddr, nes.ppu.fineXScroll,
            nes.ppu.writeToggle, nes.ppu.mask)) ∧
    (Nes.write nes 0x2000 data).map (fun n => n.ppu.portsLatch) = some data ∧
    (Nes.write nes 0x2001 data).map (fun n => n.ppu.mask) = some data ∧
    (Nes.write nes 0x2006 data).map (fun n => n.ppu.writeToggle) =
      some (!nes.ppu.writeToggle) ∧
    (nes.ppu.writeToggle = false →
      (Nes.write nes 0x2005 data).map (fun n => (n.ppu.fineXScroll, n.ppu.writeToggle)) =
        some (data &&& 0b111, true)) := by
  refine ⟨?_, ?_, ?_, ?_, ?_⟩
  · simp [Nes.write, Ppu.portWrite, h]
  · simp [Nes.write, Ppu.portWrite, h]
  · simp [Nes.write, Ppu.portWrite, h]
  · simp [Nes.write, Ppu.portWrite, h]
    split <;> rfl
  · intro hw
    simp [Nes.write, Ppu.portWrite, h, hw]

/-- Witness for C4: the lock behavior on the just-after-reset machine for
the data byte `$55`. -/
theorem C4_witness :
    (Nes.reset.ppu.ctrlUnlocked = false) ∧
    (((Nes.write Nes.reset 0x2000 0x55).map (fun n =>
        (n.ppu.ctrl, n.ppu.tmpVramAddr, n.ppu.fineXScroll, n.ppu.writeToggle, n.ppu.mask)) =
      some (Nes.reset.ppu.ctrl, Nes.reset.ppu.tmpVramAddr, Nes.reset.ppu.fineXScroll,
            Nes.reset.ppu.writeToggle, Nes.reset.ppu.mask)) ∧
    (Nes.write Nes.reset 0x2000 0x55).map (fun n => n.ppu.portsLatch) = some 0x55 ∧
    (Nes.write Nes.reset 0x2001 0x55).map (fun n => n.ppu.mask) = some 0x55 ∧
    (Nes.write Nes.reset 0x2006 0x55).map (fun n => n.ppu.writeToggle) =
      some (!Nes.reset.ppu.writeToggle) ∧
    (Nes.reset.ppu.writeToggle = false →
      (Nes.write Nes.reset 0x2005 0x55).map
          (fun n => (n.ppu.fineXScroll, n.ppu.writeToggle)) =
        some (0x55 &&& 0b111, true))) :=
  ⟨rfl, C4_only_ctrl_write_locked Nes.reset 0x55 rfl⟩

/-- Claim C9, amended.  Every CPU bus read in `$4000-$4017` returns 0 and
only performs the last-bus/predecode bookkeeping; every CPU bus write in
that window other than `$4014` is ignored apart from the same
bookkeeping; but a write to `$4014` faults (it is routed into
`Cpu::write`, which panics above `$1FFF`). -/
theorem C9_apu_window_stubbed (nes : Nes) (a d : Nat)
    (h1 : 0x4000 ≤ a) (h2 : a ≤ 0x4017) :
    Nes.read nes a =
      some ({ nes with cpu := { nes.cpu with predecode := 0 },
                       lastBus := (a, 0, true) }, 0) ∧
    (a ≠ 0x4014 →
      Nes.write nes a d =
        some { nes with cpu := { nes.cpu with predecode := d },
                        lastBus := (a, d, false) }) ∧
    Nes.write nes 0x4014 d = none := by
  refine ⟨?_, ?_, rfl⟩
  · simp [Nes.read, show ¬(a ≤ 0x1FFF) by omega, show ¬(a ≤ 0x3FFF) by omega, h2]
  · intro h3
    simp [Nes.write, show ¬(a ≤ 0x1FFF) by omega, show ¬(a ≤ 0x3FFF) by omega, h2, h3]

/-- Witness for C9: the window behavior at address `$4000` with data 1 on
the just-after-reset machine. -/
theorem C9_witness :
    ((0x4000 : Nat) ≤ 0x4000 ∧ (0x4000 : Nat) ≤ 0x4017) ∧
    (Nes.read Nes.reset 0x4000 =
      some ({ Nes.reset with cpu := { Nes.reset.cpu with predecode := 0 },
                             lastBus := (0x4000, 0, true) }, 0) ∧
    ((0x4000 : Nat) ≠ 0x4014 →
      Nes.write Nes.reset 0x4000 1 =
        some { Nes.reset with cpu := { Nes.reset.cpu with predecode := 1 },
                              lastBus := (0x4000, 1, false) }) ∧
    Nes.write Nes.reset 0x4014 1 = none) :=
  ⟨⟨by decide, by decide⟩,
   C9_apu_window_stubbed Nes.reset 0x4000 1 (by decide) (by decide)⟩

/-- Counterexample for claim C5.  With rendering completely disabled
(mask = 0), the PPU position still jumps from dot 340 of scanline 261
straight to dot 1 of scanline 0 when the new frame is odd: the dot-0 skip
does not depend on background rendering being enabled. -/
theorem C5_skip_without_rendering :
    maskShowBackground c5state.ppu.mask = false ∧
    maskShowSprites c5state.ppu.mask = false ∧
    c5state.ppu.pos = ⟨340, 261, false⟩ ∧
    (Ppu.cycle c5state).map (fun n => n.ppu.pos) = some ⟨1, 0, true⟩ := by
  refine ⟨rfl, rfl, rfl, rfl⟩

/-- Stepping `PixelPos.inc` anywhere strictly inside a frame moves from
in-frame dot index `m` to index `m + 1`, for either frame parity. -/
lemma inc_framePos (m : Nat) (b : Bool) (h : m < 89341) :
    PixelPos.inc ⟨m % 341, m / 341, b⟩ = ⟨(m + 1) % 341, (m + 1) / 341, b⟩ := by
  simp only [PixelPos.inc]
  rcases Nat.lt_or_ge (m % 341) 340 with hc | hc
  · rw [if_neg (show ¬((m % 341 + 1) % 65536 = 341) by omega)]
    simp only [PixelPos.mk.injEq, and_true]
    exact ⟨by omega, by omega⟩
  · have hm : m % 341 = 340 := by omega
    have hdiv : m / 341 ≤ 260 := by omega
    rw [if_pos (show (m % 341 + 1) % 65536 = 341 by omega),
        if_neg (show ¬((m / 341 + 1) % 65536 = 262) by omega)]
    simp only [PixelPos.mk.injEq, and_true]
    exact ⟨by omega, by omega⟩

/-- After `n ≤ 89341` dots, an even frame that started at `(0, 0)` sits at
in-frame dot index `n`. -/
lemma iterate_evenFrame (n : Nat) (h : n ≤ 89341) :
    Nat.iterate PixelPos.inc n ⟨0, 0, false⟩ = ⟨n % 341, n / 341, false⟩ := by
  induction n with
  | zero => rfl
  | succ k ih =>
    rw [Function.iterate_succ_apply', ih (by omega), inc_framePos k false (by omega)]

/-- After `n ≤ 89340` dots, an odd frame that started at `(1, 0)` sits at
in-frame dot index `n + 1`. -/
lemma iterate_oddFrame (n : Nat) (h : n ≤ 89340) :
    Nat.iterate PixelPos.inc n ⟨1, 0, true⟩ = ⟨(n + 1) % 341, (n + 1) / 341, true⟩ := by
  induction n with
  | zero => rfl
  | succ k ih =>
    rw [Function.iterate_succ_apply', ih (by omega), inc_framePos (k + 1) true (by omega)]

/-- An even frame spans exactly 89,342 dots: from its first dot `(0, 0)`,
89,342 increments land on `(1, 0)` of the following (odd) frame. -/
lemma evenFrame_span :
    Nat.iterate PixelPos.inc 89342 ⟨0, 0, false⟩ = ⟨1, 0, true⟩ := by
  have h := iterate_evenFrame 89341 (by omega)
  rw [show (89342 : Nat) = 89341 + 1 from rfl, Function.iterate_succ_apply', h]
  decide

/-- An odd frame spans exactly 89,341 dots: from its first dot `(1, 0)`,
89,341 increments land on `(0, 0)` of the following (even) frame. -/
lemma oddFrame_span :
    Nat.iterate PixelPos.inc 89341 ⟨1, 0, true⟩ = ⟨0, 0, false⟩ := by
  have h := iterate_oddFrame 89340 (by omega)
  rw [show (89341 : Nat) = 89340 + 1 from rfl, Function.iterate_succ_apply', h]
  decide

/-- Claim C5, amended.  `PixelPos::inc` advances the position by exactly
one dot, wrapping modulo `(341, 262)`, and dot 0 of scanline 0 is skipped
exactly when the new frame is odd — regardless of whether rendering is
enabled (the structure has no access to the mask register).  Consequently
an even frame spans exactly 89,342 dots and an odd frame spans exactly
89,341 dots, again irrespective of background enable. -/
theorem C5_inc_skips_dot0_of_every_odd_frame (p : PixelPos)
    (hc : p.cycle ≤ 340) (hs : p.scanline ≤ 261) :
    (PixelPos.inc p =
      if p.cycle = 340 ∧ p.scanline = 261 then
        (if p.isOdd then ⟨0, 0, false⟩ else ⟨1, 0, true⟩)
      else if p.cycle = 340 then ⟨0, p.scanline + 1, p.isOdd⟩
      else ⟨p.cycle + 1, p.scanline, p.isOdd⟩) ∧
    Nat.iterate PixelPos.inc 89342 ⟨0, 0, false⟩ = ⟨1, 0, true⟩ ∧
    Nat.iterate PixelPos.inc 89341 ⟨1, 0, true⟩ = ⟨0, 0, false⟩ := by
  refine ⟨?_, evenFrame_span, oddFrame_span⟩
  obtain ⟨pc, ps, pb⟩ := p
  simp only at hc hs
  simp only [PixelPos.inc]
  rcases Nat.lt_or_ge pc 340 with h340 | h340
  · have h1 : (pc + 1) % 65536 ≠ 341 := by omega
    have h2 : pc ≠ 340 := by omega
    simp [h1, h2, PixelPos.mk.injEq]
    all_goals omega
  · have hc340 : pc = 340 := by omega
    subst hc340
    rcases Nat.lt_or_ge ps 261 with h261 | h261
    · have h2 : (ps + 1) % 65536 ≠ 262 := by omega
      have h3 : ps ≠ 261 := by omega
      simp [h2, h3, PixelPos.mk.injEq]
      all_goals omega
    · have hs261 : ps = 261 := by omega
      subst hs261
      cases pb <;> decide

/-- Witness for C5: the characterization applied at the frame boundary
position `(340, 261)` of an even frame. -/
theorem C5_witness :
    (PixelPos.inc ⟨340, 261, false⟩ =
      if (340 : Nat) = 340 ∧ (261 : Nat) = 261 then
        (if false then ⟨0, 0, false⟩ else ⟨1, 0, true⟩)
      else if (340 : Nat) = 340 then ⟨0, 261 + 1, false⟩
      else ⟨340 + 1, 261, false⟩) ∧
    Nat.iterate PixelPos.inc 89342 ⟨0, 0, false⟩ = ⟨1, 0, true⟩ ∧
    Nat.iterate PixelPos.inc 89341 ⟨1, 0, true⟩ = ⟨0, 0, false⟩ :=
  C5_inc_skips_dot0_of_every_odd_frame ⟨340, 261, false⟩ (by decide) (by decide)

/-- Counterexample for claim C6.  A bus read of work-RAM cell 0 (holding
`5`) loads the predecode register with `5`, but a subsequent bus write of
`7` to address 1 overwrites the predecode register with `7`: intervening
writes do change the byte it holds. -/
theorem C6_write_clobbers_predecode :
    (Nes.read c6state 0).map (fun p => p.1.cpu.predecode) = some 5 ∧
    ((Nes.read c6state 0).bind (fun p => Nes.write p.1 1 7)).map
      (fun n => n.cpu.predecode) = some 7 ∧
    ((Nes.read c6state 0).bind (fun p => Nes.write p.1 1 7)).map
      (fun n => n.cpu.predecode) ≠ some 5 := by
  refine ⟨rfl, rfl, by decide⟩

/-- Counterexample for claim C9.  A CPU bus write to `$4014` (inside the
`$4000-$4017` window) is routed into `Cpu::write`, whose match has no arm
above `$1FFF`: the access panics instead of being ignored. -/
theorem C9_write_4014_faults :
    (0x4000 ≤ 0x4014 ∧ 0x4014 ≤ 0x4017) ∧
    Nes.write Nes.reset 0x4014 0 = none := by
  exact ⟨by decide, rfl⟩

/-- `Cpu::write` never touches the predecode register. -/
lemma Cpu.write_predecode (cpu : Cpu) (addr data : Nat) (c2 : Cpu)
    (h : Cpu.write cpu addr data = some c2) : c2.predecode = cpu.predecode := by
  unfold Cpu.write at h
  split at h
  · cases h
    rfl
  · cases h

/-- `Ppu::write` only touches PPU and cartridge state, never the CPU. -/
lemma Ppu.writeMem_cpu (nes : Nes) (addr data : Nat) (n2 : Nes)
    (h : Ppu.writeMem nes addr data = some n2) : n2.cpu = nes.cpu := by
  dsimp only [Ppu.writeMem] at h
  split at h
  · cases h
    rfl
  · split at h
    · cases h
      rfl
    · split at h
      · cases h
        rfl
      · cases h

/-- `Ppu::update_nmi_output` only touches the CPU's NMI line. -/
lemma Ppu.updateNmiOutput_predecode (nes : Nes) :
    (Ppu.updateNmiOutput nes).cpu.predecode = nes.cpu.predecode := by
  unfold Ppu.updateNmiOutput
  split <;> rfl

/-- `Ppu::port_write` never touches the predecode register. -/
lemma Ppu.portWrite_predecode (nes : Nes) (addr data : Nat) (n2 : Nes)
    (h : Ppu.portWrite nes addr data = some n2) :
    n2.cpu.predecode = nes.cpu.predecode := by
  by_cases h0 : addr = 0x2000
  · subst h0
    obtain rfl := Option.some.inj h
    split
    · rw [Ppu.updateNmiOutput_predecode]
    · rfl
  by_cases h1 : addr = 0x2001
  · subst h1
    obtain rfl := Option.some.inj h
    rfl
  by_cases h2 : addr = 0x2002
  · subst h2
    obtain rfl := Option.some.inj h
    rfl
  by_cases h3 : addr = 0x2003
  · subst h3
    obtain rfl := Option.some.inj h
    rfl
  by_cases h4 : addr = 0x2004
  · subst h4
    exact Option.noConfusion h
  by_cases h5 : addr = 0x2005
  · subst h5
    obtain rfl := Option.some.inj h
    rfl
  by_cases h6 : addr = 0x2006
  · subst h6
    obtain rfl := Option.some.inj h
    rfl
  by_cases h7 : addr = 0x2007
  · subst h7
    replace h : (Ppu.writeMem { nes with ppu := { nes.ppu with portsLatch := data } }
        ({ nes with ppu := { nes.ppu with portsLatch := data } } : Nes).ppu.vramAddr
        data).bind (fun nes =>
          some { nes with ppu := { nes.ppu with vramAddr :=
            (nes.ppu.vramAddr +
              (if !ctrlVramAddrInc nes.ppu.ctrl then 1 else 32)) % 65536 } }) =
        some n2 := h
    rw [Option.bind_eq_some] at h
    obtain ⟨n3, hn3, hsome⟩ := h
    obtain rfl := Option.some.inj hsome
    show n3.cpu.predecode = nes.cpu.predecode
    rw [Ppu.writeMem_cpu _ _ _ _ hn3]
  · simp only [Ppu.portWrite, h0, h1, h2, h3, h4, h5, h6, h7, if_false] at h
    exact Option.noConfusion h

/-- Claim C6, amended.  Every successful bus access through `Nes` records
`(addr, data, is_read)` into the single-slot `last_bus`, and the predecode
register ends up holding the byte that crossed the bus: the byte read
after a read, but also the byte *written* after a write (the claim's
assertion that intervening writes leave the predecode register unchanged
does not hold, see the counterexample). -/
theorem C6_bus_bookkeeping :
    (∀ nes addr data nes2, Nes.write nes addr data = some nes2 →
       nes2.lastBus = (addr, data, false) ∧ nes2.cpu.predecode = data) ∧
    (∀ nes addr nes2 v, Nes.read nes addr = some (nes2, v) →
       nes2.lastBus = (addr, v, true) ∧ nes2.cpu.predecode = v) := by
  constructor
  · intro nes addr data nes2 h
    unfold Nes.write at h
    rw [Option.bind_eq_some] at h
    obtain ⟨n, hn, h2⟩ := h
    obtain rfl := Option.some.inj h2
    refine ⟨rfl, ?_⟩
    show n.cpu.predecode = data
    split at hn
    · rw [Option.bind_eq_some] at hn
      obtain ⟨c, hc, hn⟩ := hn
      obtain rfl := Option.some.inj hn
      exact Cpu.write_predecode _ _ _ _ hc
    · split at hn
      · exact Ppu.portWrite_predecode _ _ _ _ hn
      · split at hn
        · obtain rfl := Option.some.inj hn
          rfl
        · split at hn
          · exact Option.noConfusion hn
          · split at hn
            · rw [Option.bind_eq_some] at hn
              obtain ⟨c, hc, hn⟩ := hn
              obtain rfl := Option.some.inj hn
              rfl
            · exact Option.noConfusion hn
  · intro nes addr nes2 v h
    unfold Nes.read at h
    rw [Option.bind_eq_some] at h
    obtain ⟨nv, hnv, h2⟩ := h
    have h3 := Option.some.inj h2
    rw [Prod.mk.injEq] at h3
    obtain ⟨rfl, rfl⟩ := h3
    exact ⟨rfl, rfl⟩

/-- The sample write of C6's witness succeeds. -/
lemma c6w_isSome : (Nes.write Nes.reset 0 5).isSome = true := rfl

/-- The sample read of C6's witness succeeds. -/
lemma c6r_isSome : (Nes.read c6state 0).isSome = true := rfl

/-- Witness for C6: the bookkeeping facts at a concrete write (address 0,
data 5) and a concrete read (address 0 of `c6state`). -/
theorem C6_witness :
    ((Nes.write Nes.reset 0 5).get c6w_isSome).lastBus = (0, 5, false) ∧
    ((Nes.write Nes.reset 0 5).get c6w_isSome).cpu.predecode = 5 ∧
    ((Nes.read c6state 0).get c6r_isSome).1.lastBus =
      (0, ((Nes.read c6state 0).get c6r_isSome).2, true) ∧
    ((Nes.read c6state 0).get c6r_isSome).1.cpu.predecode =
      ((Nes.read c6state 0).get c6r_isSome).2 := by
  have hw : Nes.write Nes.reset 0 5 =
      some ((Nes.write Nes.reset 0 5).get c6w_isSome) :=
    (Option.some_get c6w_isSome).symm
  have hr : Nes.read c6state 0 =
      some ((Nes.read c6state 0).get c6r_isSome) :=
    (Option.some_get c6r_isSome).symm
  obtain ⟨hw1, hw2⟩ := C6_bus_bookkeeping.1 Nes.reset 0 5 _ hw
  obtain ⟨hr1, hr2⟩ := C6_bus_bookkeeping.2 c6state 0 _ _ hr
  exact ⟨hw1, hw2, hr1, hr2⟩

/-- Setting or clearing a single status flag changes exactly the masked
bit: evaluating `testBit` through `statusSet` (for status bits below 8). -/
lemma testBit_statusSet (s mask : Nat) (b : Bool) (i : Nat) (hi : i < 8) :
    (statusSet s mask b).testBit i = if mask.testBit i then b else s.testBit i := by
  have h255 : (255 : Nat).testBit i = true := by
    interval_cases i <;> rfl
  cases b <;> simp [statusSet, h255] <;> cases mask.testBit i <;> simp

/-- The `x & $80 != 0` test used by the flag code reads bit 7. -/
lemma bne_and_two_pow_seven (x : Nat) : ((x &&& 128) != 0) = x.testBit 7 := by
  have h := Nat.and_two_pow x 7
  norm_num at h
  rw [h]
  cases x.testBit 7 <;> simp

/-- The `x & $80 > 0` test used by the flag code reads bit 7. -/
lemma decide_pos_and_two_pow_seven (x : Nat) :
    (decide (0 < x &&& 128)) = x.testBit 7 := by
  have h := Nat.and_two_pow x 7
  norm_num at h
  rw [h]
  cases x.testBit 7 <;> simp

/-- For a 9-bit sum, the `& $100 != 0` carry test is the `≥ 256` test. -/
lemma bne_and_two_pow_eight (n : Nat) (h : n < 512) :
    ((n &&& 256) != 0) = decide (256 ≤ n) := by
  have ha := Nat.and_two_pow n 8
  norm_num at ha
  have hb : n.testBit 8 = decide (n / 256 % 2 = 1) := by
    have := Nat.testBit_to_div_mod (x := n) (i := 8)
    norm_num at this
    exact this
  rcases Nat.lt_or_ge n 256 with h1 | h1
  · have hd : n / 256 = 0 := by omega
    rw [ha, hb, hd]
    simp [show ¬(256 ≤ n) by omega]
  · have hd : n / 256 = 1 := by omega
    rw [ha, hb, hd]
    simp [h1]

/-- The source's overflow test `~(A^M) & (A^R) & $80` agrees on bit 7 with
the spec's formulation `(A^R) & (M^R) & $80`. -/
lemma overflow_bit_eq (a m r : Nat) :
    ((((a ^^^ m) ^^^ 255) &&& (a ^^^ r) &&& 128) != 0) =
      (((a ^^^ r) &&& (m ^^^ r) &&& 128) != 0) := by
  rw [bne_and_two_pow_seven, bne_and_two_pow_seven]
  simp [show ((255 : Nat).testBit 7) = true from rfl]
  generalize a.testBit 7 = x
  generalize m.testBit 7 = y
  generalize r.testBit 7 = z
  cases x <;> cases y <;> cases z <;> rfl

/-- Claim C7.  For every accumulator byte `A`, operand byte `M` and status
`s` (with incoming carry `C_in` read from status bit 0), `adc` leaves the
accumulator at `(A + M + C_in) mod 256`, sets carry (bit 0) iff
`A + M + C_in ≥ 256`, sets overflow (bit 6) iff
`(A xor R) & (M xor R) & $80` is nonzero for the 8-bit result `R`, sets
zero (bit 1) iff `R = 0`, and sets negative (bit 7) to bit 7 of `R`. -/
theorem C7_adc_flags (A M s : Nat) (hA : A < 256) (hM : M < 256) :
    (adcCore A M s).1 = (A + M + (if s.testBit 0 then 1 else 0)) % 256 ∧
    (adcCore A M s).2.testBit 0 =
      decide (256 ≤ A + M + (if s.testBit 0 then 1 else 0)) ∧
    (adcCore A M s).2.testBit 6 =
      (((A ^^^ ((A + M + (if s.testBit 0 then 1 else 0)) % 256)) &&&
        (M ^^^ ((A + M + (if s.testBit 0 then 1 else 0)) % 256)) &&& 0x80) != 0) ∧
    (adcCore A M s).2.testBit 1 =
      (((A + M + (if s.testBit 0 then 1 else 0)) % 256) == 0) ∧
    (adcCore A M s).2.testBit 7 =
      ((A + M + (if s.testBit 0 then 1 else 0)) % 256).testBit 7 := by
  simp only [adcCore]
  generalize hcin : (if s.testBit 0 then (1 : Nat) else 0) = cin
  have hc2 : cin < 2 := by rw [← hcin]; split <;> omega
  have hsum : A + M + cin < 512 := by omega
  have hres : (A + M + cin) % 65536 = A + M + cin := by omega
  rw [hres]
  have h0 : ∀ s mask b, (statusSet s mask b).testBit 0 =
      if mask.testBit 0 then b else s.testBit 0 :=
    fun s mask b => testBit_statusSet s mask b 0 (by norm_num)
  have h1 : ∀ s mask b, (statusSet s mask b).testBit 1 =
      if mask.testBit 1 then b else s.testBit 1 :=
    fun s mask b => testBit_statusSet s mask b 1 (by norm_num)
  have h6 : ∀ s mask b, (statusSet s mask b).testBit 6 =
      if mask.testBit 6 then b else s.testBit 6 :=
    fun s mask b => testBit_statusSet s mask b 6 (by norm_num)
  have h7 : ∀ s mask b, (statusSet s mask b).testBit 7 =
      if mask.testBit 7 then b else s.testBit 7 :=
    fun s mask b => testBit_statusSet s mask b 7 (by norm_num)
  refine ⟨rfl, ?_, ?_, ?_, ?_⟩
  · simp only [h0, show ((128 : Nat).testBit 0) = false from rfl,
      show ((2 : Nat).testBit 0) = false from rfl,
      show ((64 : Nat).testBit 0) = false from rfl,
      show ((1 : Nat).testBit 0) = true from rfl, if_true, if_false]
    exact bne_and_two_pow_eight _ hsum
  · simp only [h6, show ((128 : Nat).testBit 6) = false from rfl,
      show ((2 : Nat).testBit 6) = false from rfl,
      show ((64 : Nat).testBit 6) = true from rfl, if_true, if_false]
    exact overflow_bit_eq A M ((A + M + cin) % 256)
  · simp only [h1, show ((128 : Nat).testBit 1) = false from rfl,
      show ((2 : Nat).testBit 1) = true from rfl, if_true, if_false]
    simp
  · simp only [h7, show ((128 : Nat).testBit 7) = true from rfl, if_true]
    rw [decide_pos_and_two_pow_seven,
        show (256 : Nat) = 2 ^ 8 from rfl, Nat.testBit_mod_two_pow]
    simp

/-- Witness for C7: `ADC #$50` with `A = $50`, `C_in = 0` gives `A = $A0`
with `N = 1`, `V = 1`, `C = 0`, `Z = 0`. -/
theorem C7_witness :
    ((0x50 : Nat) < 256 ∧ (0x50 : Nat) < 256) ∧
    ((adcCore 0x50 0x50 0).1 =
        (0x50 + 0x50 + (if (0 : Nat).testBit 0 then 1 else 0)) % 256 ∧
      (adcCore 0x50 0x50 0).2.testBit 0 =
        decide (256 ≤ 0x50 + 0x50 + (if (0 : Nat).testBit 0 then 1 else 0)) ∧
      (adcCore 0x50 0x50 0).2.testBit 6 =
        (((0x50 ^^^ ((0x50 + 0x50 + (if (0 : Nat).testBit 0 then 1 else 0)) % 256)) &&&
          (0x50 ^^^ ((0x50 + 0x50 + (if (0 : Nat).testBit 0 then 1 else 0)) % 256)) &&&
          0x80) != 0) ∧
      (adcCore 0x50 0x50 0).2.testBit 1 =
        (((0x50 + 0x50 + (if (0 : Nat).testBit 0 then 1 else 0)) % 256) == 0) ∧
      (adcCore 0x50 0x50 0).2.testBit 7 =
        ((0x50 + 0x50 + (if (0 : Nat).testBit 0 then 1 else 0)) % 256).testBit 7) :=
  ⟨by decide, C7_adc_flags 0x50 0x50 0 (by decide) (by decide)⟩

set_option maxRecDepth 4000 in
/-- Claim C8.  For every status byte `P`, executing PHP and then PLP (on
`c8state P`, where nothing else touches the stack in between) pushes
`P | $30` (P with bits 4 and 5 set), and restores a status equal to `P`
on bits 0-3 and 6-7 (`& $CF`), with bit 5 forced to 1 and bit 4 cleared;
the stack pointer returns to its original value. -/
theorem C8_php_plp_roundtrip (P : Nat) (hP : P < 256) :
    (phpExec (c8state P)).map (fun pn => pn.2.cpu.wram 0x1FD) = some (P ||| 0x30) ∧
    ((phpExec (c8state P)).bind (fun pn => plpExec pn.2)).map
      (fun pn => pn.2.cpu.status) = some ((P &&& 0xCF) ||| 0x20) ∧
    ((P &&& 0xCF) ||| 0x20) &&& 0xCF = P &&& 0xCF ∧
    (((P &&& 0xCF) ||| 0x20).testBit 5 = true) ∧
    (((P &&& 0xCF) ||| 0x20).testBit 4 = false) ∧
    ((P ||| 0x30) &&& 0xCF = P &&& 0xCF) ∧
    ((P ||| 0x30).testBit 4 = true) ∧ ((P ||| 0x30).testBit 5 = true) ∧
    ((phpExec (c8state P)).bind (fun pn => plpExec pn.2)).map
      (fun pn => pn.2.cpu.sp) = some 0xFD := by
  revert P
  decide

/-- Witness for C8: the round trip at the concrete status byte `$45`. -/
theorem C8_witness :
    ((0x45 : Nat) < 256) ∧
    ((phpExec (c8state 0x45)).map (fun pn => pn.2.cpu.wram 0x1FD) =
        some (0x45 ||| 0x30) ∧
      ((phpExec (c8state 0x45)).bind (fun pn => plpExec pn.2)).map
        (fun pn => pn.2.cpu.status) = some ((0x45 &&& 0xCF) ||| 0x20) ∧
      ((0x45 &&& 0xCF) ||| 0x20) &&& 0xCF = 0x45 &&& 0xCF ∧
      (((0x45 &&& 0xCF) ||| 0x20).testBit 5 = true) ∧
      (((0x45 &&& 0xCF) ||| 0x20).testBit 4 = false) ∧
      ((0x45 ||| 0x30) &&& 0xCF = 0x45 &&& 0xCF) ∧
      ((0x45 ||| 0x30).testBit 4 = true) ∧ ((0x45 ||| 0x30).testBit 5 = true) ∧
      ((phpExec (c8state 0x45)).bind (fun pn => plpExec pn.2)).map
        (fun pn => pn.2.cpu.sp) = some 0xFD) :=
  ⟨by decide, C8_php_plp_roundtrip 0x45 (by decide)⟩

/-- Claim C10.  Every CPU bus access to port `$2004` (OAMDATA) faults:
both `Ppu::port_read` and `Ppu::port_write` hit `unimplemented!` there,
so reads and writes through the `Nes` bus abort as well. -/
theorem C10_port_2004_faults (nes : Nes) (data : Nat) :
    Ppu.portRead nes 0x2004 = none ∧
    Ppu.portWrite nes 0x2004 data = none ∧
    Nes.read nes 0x2004 = none ∧
    Nes.write nes 0x2004 data = none := by
  refine ⟨rfl, rfl, rfl, rfl⟩

end NESiR
